import Mathlib

/-!
Shallow embedding of `src/backend/server.js` (pixel-trace admin backend).

The server keeps a single in-memory table `events` mapping an event name to a
record `{ status, created_at, updated_at, manifest, pod }` and exposes three
HTTP handlers:

* `POST /admin/start-index` — validates `driveFolderId`/`eventName`, writes a
  fresh `queued` record, calls the external RunPod API, and on a successful
  `await fetch` + `await rpResp.json()` sets the record to `processing` with
  the pod data; a thrown error is caught and answered with HTTP 500.
* `POST /runpod-callback` — optionally checks the `x-runpod-secret` header
  against `WEBHOOK_SECRET`, then, when the body carries a truthy `event_id`,
  writes status `ready` and the manifest (updating an existing record or
  creating a fresh one).
* `GET /events/:eventName` — reads the record, answering 404 when absent.

JavaScript strings that may be `undefined` or empty are modelled as plain
`String`, with `""` playing the role of every falsy value (the code only ever
tests truthiness on them). Timestamps (`Date.now()`) are explicit `Nat`
parameters. The outcome of the outbound `fetch` + `.json()` pair is a
parameter of type `Except String PodData`: `.error` is a thrown rejection
(network failure or JSON parse failure), `.ok` is any response whose body
parsed — the handler never inspects `rpResp.ok` or the HTTP status, so a
4xx/5xx response with a JSON body lands in the `.ok` branch.
-/

/-- Opaque payload returned by the RunPod API (`data` in the handler). -/
abbrev PodData := String

/-- The JSON body posted to `/runpod-callback`: an `event_id` field (possibly
absent, modelled as `""`) plus the rest of the payload, kept opaque. -/
structure Manifest where
  event_id : String
  payload : String
deriving DecidableEq, Repr

/-- One entry of the `events` table. The JavaScript object starts with only
`status`/`created_at` (start-index path) or `status`/`manifest`/`updated_at`
(callback-creation path); absent fields are `none`. -/
structure JobRecord where
  status : String
  created_at : Option Nat := none
  updated_at : Option Nat := none
  manifest : Option Manifest := none
  pod : Option PodData := none
deriving DecidableEq, Repr

/-- The in-memory `events` table: event name to record. -/
abbrev Store := String → Option JobRecord

/-- `events[name] = r` — assign (insert or replace) one key. -/
def Store.set (s : Store) (name : String) (r : JobRecord) : Store :=
  fun k => if k = name then some r else s k

/-- The table at process start: `const events = {}`. -/
def emptyStore : Store := fun _ => none

/-- Result of the `/admin/start-index` handler: the table afterwards, the HTTP
status sent, whether the JSON body was the success shape `{ok: true, ...}`,
and whether the outbound `fetch` to the RunPod API was reached. -/
structure StartIndexResult where
  store : Store
  httpStatus : Nat
  respOk : Bool
  externalCalled : Bool

/-- `POST /admin/start-index`. Parameters: the three body fields (falsy
modelled as `""`), the outcome `ext` of `await fetch` + `await rpResp.json()`,
the value `tCreate` of `Date.now()` at record creation, and the table. -/
def startIndex (driveFolderId eventName : String) (_ownerId : String)
    (ext : Except String PodData) (tCreate : Nat) (s : Store) : StartIndexResult :=
  if driveFolderId = "" ∨ eventName = "" then
    { store := s, httpStatus := 400, respOk := false, externalCalled := false }
  else
    -- events[eventName] = { status: "queued", created_at: Date.now() }
    let s1 := Store.set s eventName { status := "queued", created_at := some tCreate }
    match ext with
    | .error _ =>
        -- catch: res.status(500).json({error}); the queued record stays.
        { store := s1, httpStatus := 500, respOk := false, externalCalled := true }
    | .ok data =>
        -- events[eventName].status = "processing"; events[eventName].pod = data
        let s2 := match s1 eventName with
          | some r => Store.set s1 eventName { r with status := "processing", pod := some data }
          | none => s1  -- unreachable: eventName was assigned just above
        { store := s2, httpStatus := 200, respOk := true, externalCalled := true }

/-- Result of the `/runpod-callback` handler: the table afterwards, the HTTP
status, and whether the body was the JSON `{ok: true}` (as opposed to the
plain `"unauthorized"` text of the 401 branch). -/
structure CallbackResult where
  store : Store
  httpStatus : Nat
  respOk : Bool

/-- `POST /runpod-callback`. `cfgSecret` is `process.env.WEBHOOK_SECRET`
(`""` when unset), `hdr` is `req.get("x-runpod-secret") || ""`, `m` is the
JSON body, `now` is `Date.now()`. -/
def runpodCallback (cfgSecret hdr : String) (m : Manifest) (now : Nat)
    (s : Store) : CallbackResult :=
  if cfgSecret ≠ "" ∧ hdr ≠ cfgSecret then
    { store := s, httpStatus := 401, respOk := false }
  else
    let eventName := m.event_id
    if eventName = "" then
      -- neither branch of the if/else-if runs; res.json({ok:true})
      { store := s, httpStatus := 200, respOk := true }
    else
      match s eventName with
      | some r =>
          -- events[eventName].status = "ready"; .manifest = manifest; .updated_at = now
          { store := Store.set s eventName
              { r with status := "ready", manifest := some m, updated_at := some now },
            httpStatus := 200, respOk := true }
      | none =>
          -- events[eventName] = { status: "ready", manifest, updated_at: now }
          { store := Store.set s eventName
              { status := "ready", manifest := some m, updated_at := some now },
            httpStatus := 200, respOk := true }

/-- Result of the `/events/:eventName` handler: the (untouched) table, the
HTTP status, and the JSON body (the record, or `none` for the 404 error). -/
structure GetEventResult where
  store : Store
  httpStatus : Nat
  body : Option JobRecord

/-- `GET /events/:eventName`. -/
def getEvent (s : Store) (eventName : String) : GetEventResult :=
  match s eventName with
  | none => { store := s, httpStatus := 404, body := none }
  | some e => { store := s, httpStatus := 200, body := some e }

/-- Rank of a status string along the spec order
`Queued → Dispatching → Processing → {Ready|Failed}` (terminal states share
the top rank; strings the code never produces rank lowest). -/
def stateRank (st : String) : Nat :=
  if st = "queued" then 0
  else if st = "dispatching" then 1
  else if st = "processing" then 2
  else if st = "ready" then 3
  else if st = "failed" then 3
  else 0

/-- Rank of an optional record (absent ranks lowest). -/
def rankOpt : Option JobRecord → Nat
  | none => 0
  | some r => stateRank r.status

/-- A record with its `updated_at` field erased, to compare everything else. -/
def stripUpdated (r : JobRecord) : JobRecord := { r with updated_at := none }

theorem Store.set_same (s : Store) (name : String) (r : JobRecord) :
    Store.set s name r name = some r := by
  simp [Store.set]

theorem Store.set_ne (s : Store) (name : String) (r : JobRecord) (k : String)
    (h : k ≠ name) : Store.set s name r k = s k := by
  simp [Store.set, h]

theorem stateRank_le_three (st : String) : stateRank st ≤ 3 := by
  unfold stateRank
  split <;> try omega
  split <;> try omega
  split <;> try omega
  split <;> try omega
  split <;> omega

/-- C5: when a callback secret is configured, a callback presenting a wrong or
missing secret is answered 401 with the plain rejection body and the events
table is left exactly as it was — no record created or mutated. -/
theorem callback_bad_secret_rejected (cfgSecret hdr : String) (m : Manifest)
    (now : Nat) (s : Store) (hcfg : cfgSecret ≠ "") (hh : hdr ≠ cfgSecret) :
    (runpodCallback cfgSecret hdr m now s).store = s ∧
    (runpodCallback cfgSecret hdr m now s).httpStatus = 401 ∧
    (runpodCallback cfgSecret hdr m now s).respOk = false := by
  simp [runpodCallback, hcfg, hh]

/-- C5 witness: concrete run with configured secret "sec" and wrong header. -/
theorem callback_bad_secret_rejected_witness :
    (runpodCallback "sec" "wrong" ⟨"E1", "p"⟩ 7 emptyStore).store = emptyStore ∧
    (runpodCallback "sec" "wrong" ⟨"E1", "p"⟩ 7 emptyStore).httpStatus = 401 ∧
    (runpodCallback "sec" "wrong" ⟨"E1", "p"⟩ 7 emptyStore).respOk = false :=
  callback_bad_secret_rejected "sec" "wrong" ⟨"E1", "p"⟩ 7 emptyStore
    (by decide) (by decide)

/-- C6: a submission missing driveFolderId or eventName is answered 400, the
events table is unchanged (no job record created), and the outbound call to
the provider is never reached. -/
theorem startIndex_invalid_rejected (f e o : String) (ext : Except String PodData)
    (t : Nat) (s : Store) (h : f = "" ∨ e = "") :
    (startIndex f e o ext t s).store = s ∧
    (startIndex f e o ext t s).httpStatus = 400 ∧
    (startIndex f e o ext t s).externalCalled = false := by
  unfold startIndex
  rw [if_pos h]
  exact ⟨rfl, rfl, rfl⟩

/-- C6 witness: concrete run with a missing eventName. -/
theorem startIndex_invalid_rejected_witness :
    (startIndex "F1" "" "owner" (.ok "pod") 3 emptyStore).store = emptyStore ∧
    (startIndex "F1" "" "owner" (.ok "pod") 3 emptyStore).httpStatus = 400 ∧
    (startIndex "F1" "" "owner" (.ok "pod") 3 emptyStore).externalCalled = false :=
  startIndex_invalid_rejected "F1" "" "owner" (.ok "pod") 3 emptyStore
    (Or.inr rfl)

/-- C7: applying the callback twice with the same id and the same payload
leaves every record identical after the second call up to the updated_at
field — in particular status and manifest are unchanged. Holds for every
table, every key, and every auth configuration. -/
theorem callback_idempotent (cfgSecret hdr : String) (m : Manifest)
    (t1 t2 : Nat) (s : Store) (k : String) :
    ((runpodCallback cfgSecret hdr m t2
        (runpodCallback cfgSecret hdr m t1 s).store).store k).map stripUpdated
      = ((runpodCallback cfgSecret hdr m t1 s).store k).map stripUpdated := by
  by_cases hA : cfgSecret ≠ "" ∧ hdr ≠ cfgSecret
  · simp [runpodCallback, hA]
  · by_cases hev : m.event_id = ""
    · simp [runpodCallback, hA, hev]
    · by_cases hk : k = m.event_id
      · subst hk
        cases hrec : s m.event_id <;>
          simp [runpodCallback, hA, hev, hrec, Store.set_same, stripUpdated]
      · cases hrec : s m.event_id <;>
          simp [runpodCallback, hA, hev, hrec, Store.set_same,
            Store.set_ne _ _ _ _ hk]

/-- C8: the status query returns the stored record with 200 when one exists,
404 with an error body when none exists, and never changes the table. -/
theorem getEvent_pure_read (s : Store) (n : String) :
    (getEvent s n).store = s ∧
    (getEvent s n).body = s n ∧
    (getEvent s n).httpStatus = (match s n with | none => 404 | some _ => 200) := by
  cases h : s n <;> simp [getEvent, h]

/-- C9: an authenticated callback whose body has no truthy event_id is
accepted with 200 and the JSON success body, and the table is untouched. -/
theorem callback_missing_event_id_noop (cfgSecret hdr : String) (m : Manifest)
    (now : Nat) (s : Store) (hauth : cfgSecret = "" ∨ hdr = cfgSecret)
    (hev : m.event_id = "") :
    (runpodCallback cfgSecret hdr m now s).store = s ∧
    (runpodCallback cfgSecret hdr m now s).httpStatus = 200 ∧
    (runpodCallback cfgSecret hdr m now s).respOk = true := by
  rcases hauth with h | h <;> subst h <;> simp [runpodCallback, hev]

/-- C9 witness: concrete run with no secret configured and empty event_id. -/
theorem callback_missing_event_id_noop_witness :
    (runpodCallback "" "" ⟨"", "payload"⟩ 9 emptyStore).store = emptyStore ∧
    (runpodCallback "" "" ⟨"", "payload"⟩ 9 emptyStore).httpStatus = 200 ∧
    (runpodCallback "" "" ⟨"", "payload"⟩ 9 emptyStore).respOk = true :=
  callback_missing_event_id_noop "" "" ⟨"", "payload"⟩ 9 emptyStore
    (Or.inl rfl) rfl

/-- C10: every accepted callback carrying a truthy event_id leaves that
record with status "ready" — the callback path has no input that produces
status "failed" (the handler writes only the string "ready"). -/
theorem callback_always_ready (cfgSecret hdr : String) (m : Manifest)
    (now : Nat) (s : Store) (hauth : cfgSecret = "" ∨ hdr = cfgSecret)
    (hev : m.event_id ≠ "") :
    ((runpodCallback cfgSecret hdr m now s).store m.event_id).map JobRecord.status
      = some "ready" ∧
    (runpodCallback cfgSecret hdr m now s).httpStatus = 200 := by
  rcases hauth with h | h <;> subst h <;>
    cases hrec : s m.event_id <;>
      simp [runpodCallback, hev, hrec, Store.set_same]

/-- C10 witness: concrete accepted callback ends in status "ready". -/
theorem callback_always_ready_witness :
    ((runpodCallback "" "" ⟨"E", "p"⟩ 3 emptyStore).store "E").map JobRecord.status
      = some "ready" ∧
    (runpodCallback "" "" ⟨"E", "p"⟩ 3 emptyStore).httpStatus = 200 :=
  callback_always_ready "" "" ⟨"E", "p"⟩ 3 emptyStore (Or.inl rfl) (by decide)

/-- C1 counterexample: a first callback stores manifest ⟨"E", "first"⟩ and
the terminal status "ready"; a second callback with a different manifest for
the same id replaces the stored manifest — the first terminal write does not
win, contradicting the claim that the manifest is never overwritten. -/
theorem callback_overwrites_manifest_cex :
    ((runpodCallback "" "" ⟨"E", "first"⟩ 1 emptyStore).store "E").bind
        JobRecord.manifest = some ⟨"E", "first"⟩ ∧
    ((runpodCallback "" "" ⟨"E", "first"⟩ 1 emptyStore).store "E").map
        JobRecord.status = some "ready" ∧
    ((runpodCallback "" "" ⟨"E", "second"⟩ 2
        (runpodCallback "" "" ⟨"E", "first"⟩ 1 emptyStore).store).store "E").bind
        JobRecord.manifest = some ⟨"E", "second"⟩ ∧
    (⟨"E", "second"⟩ : Manifest) ≠ ⟨"E", "first"⟩ := by
  decide

/-- C1 amended: for a job whose record already exists — terminal or not — a
subsequent accepted callback overwrites the stored manifest with the new one,
(re)sets status to "ready" and refreshes updated_at, keeping only created_at
and pod: the last terminal write wins. -/
theorem callback_terminal_overwrite (cfgSecret hdr : String) (m : Manifest)
    (now : Nat) (s : Store) (r : JobRecord)
    (hauth : cfgSecret = "" ∨ hdr = cfgSecret)
    (hev : m.event_id ≠ "") (hrec : s m.event_id = some r) :
    (runpodCallback cfgSecret hdr m now s).store m.event_id
      = some { r with status := "ready", manifest := some m, updated_at := some now } := by
  rcases hauth with h | h <;> subst h <;>
    simp [runpodCallback, hev, hrec, Store.set_same]

/-- C1 amended witness: a record already "ready" with an old manifest gets
the new manifest and a fresh updated_at. -/
theorem callback_terminal_overwrite_witness :
    (runpodCallback "" "" ⟨"E", "new"⟩ 5
        (Store.set emptyStore "E"
          { status := "ready", updated_at := some 1,
            manifest := some ⟨"E", "old"⟩ })).store "E"
      = some { status := "ready", created_at := none, updated_at := some 5,
               manifest := some ⟨"E", "new"⟩, pod := none } :=
  callback_terminal_overwrite "" "" ⟨"E", "new"⟩ 5
    (Store.set emptyStore "E"
      { status := "ready", updated_at := some 1, manifest := some ⟨"E", "old"⟩ })
    { status := "ready", updated_at := some 1, manifest := some ⟨"E", "old"⟩ }
    (Or.inl rfl) (by decide) (Store.set_same _ _ _)

/-- C2 counterexample: a valid submission whose outbound call throws (network
error) is answered HTTP 500 — not 200 — and the job record stays in status
"queued" with no error recorded — it never becomes "failed". -/
theorem startIndex_provider_failure_cex :
    (startIndex "F" "E2" "" (.error "network down") 1 emptyStore).httpStatus
        = 500 ∧
    ((startIndex "F" "E2" "" (.error "network down") 1 emptyStore).store
        "E2").map JobRecord.status = some "queued" := by
  decide

/-- C2 amended: for a valid submission, when the outbound call throws the
handler answers 500 and the record stays "queued" (created_at only); when the
response body parses — the handler never checks the HTTP status of the
provider response, so 4xx/5xx responses land here too — it answers 200 and
the record becomes "processing" with the pod data. No path produces a
"failed" record. -/
theorem startIndex_provider_outcomes (f e o msg : String) (d : PodData)
    (t : Nat) (s : Store) (hf : f ≠ "") (he : e ≠ "") :
    ((startIndex f e o (.error msg) t s).httpStatus = 500 ∧
      (startIndex f e o (.error msg) t s).store e
        = some { status := "queued", created_at := some t }) ∧
    ((startIndex f e o (.ok d) t s).httpStatus = 200 ∧
      (startIndex f e o (.ok d) t s).store e
        = some { status := "processing", created_at := some t,
                 pod := some d }) := by
  simp [startIndex, hf, he, Store.set_same]

/-- C2 amended witness: both provider outcomes at concrete inputs. -/
theorem startIndex_provider_outcomes_witness :
    ((startIndex "F" "E2" "" (.error "boom") 1 emptyStore).httpStatus = 500 ∧
      (startIndex "F" "E2" "" (.error "boom") 1 emptyStore).store "E2"
        = some { status := "queued", created_at := some 1 }) ∧
    ((startIndex "F" "E2" "" (.ok "pod") 1 emptyStore).httpStatus = 200 ∧
      (startIndex "F" "E2" "" (.ok "pod") 1 emptyStore).store "E2"
        = some { status := "processing", created_at := some 1,
                 pod := some "pod" }) :=
  startIndex_provider_outcomes "F" "E2" "" "boom" "pod" 1 emptyStore
    (by decide) (by decide)

/-- C3 counterexample: a callback arriving before any submit creates job "X"
directly in status "ready"; a later submit for the same id is answered 200 —
not Conflict — and replaces the terminal record with a fresh "processing"
record, losing the stored manifest. -/
theorem startIndex_overwrites_existing_cex :
    ((runpodCallback "" "" ⟨"X", "m"⟩ 1 emptyStore).store "X").map
        JobRecord.status = some "ready" ∧
    (startIndex "F" "X" "" (.ok "pod") 2
        (runpodCallback "" "" ⟨"X", "m"⟩ 1 emptyStore).store).httpStatus = 200 ∧
    (startIndex "F" "X" "" (.ok "pod") 2
        (runpodCallback "" "" ⟨"X", "m"⟩ 1 emptyStore).store).store "X"
      = some { status := "processing", created_at := some 2,
               pod := some "pod" } := by
  decide

/-- C3 amended: a submit for an id that already has a record — terminal
included — does not fail with Conflict: it unconditionally replaces the
record with a fresh one (queued, then processing on a parsed provider
response) and answers 200, discarding whatever was stored before. -/
theorem startIndex_existing_id_overwritten (f e o : String) (d : PodData)
    (t : Nat) (s : Store) (r : JobRecord) (hf : f ≠ "") (he : e ≠ "")
    (_hrec : s e = some r) :
    (startIndex f e o (.ok d) t s).httpStatus = 200 ∧
    (startIndex f e o (.ok d) t s).store e
      = some { status := "processing", created_at := some t,
               pod := some d } := by
  simp [startIndex, hf, he, Store.set_same]

/-- C3 amended witness: resubmitting over an existing "ready" record. -/
theorem startIndex_existing_id_overwritten_witness :
    (startIndex "F" "X" "" (.ok "pod") 2
        (Store.set emptyStore "X"
          { status := "ready", manifest := some ⟨"X", "m"⟩ })).httpStatus
        = 200 ∧
    (startIndex "F" "X" "" (.ok "pod") 2
        (Store.set emptyStore "X"
          { status := "ready", manifest := some ⟨"X", "m"⟩ })).store "X"
      = some { status := "processing", created_at := some 2,
               pod := some "pod" } :=
  startIndex_existing_id_overwritten "F" "X" "" "pod" 2
    (Store.set emptyStore "X" { status := "ready", manifest := some ⟨"X", "m"⟩ })
    { status := "ready", manifest := some ⟨"X", "m"⟩ }
    (by decide) (by decide) (Store.set_same _ _ _)

/-- C4 counterexample: a callback creates job "X" in the terminal status
"ready" (rank 3); a later submit for the same id resets it to "queued"
(rank 0) — a backward move along the lifecycle order, contradicting
monotonicity. -/
theorem backward_transition_cex :
    ((runpodCallback "" "" ⟨"X", "m"⟩ 1 emptyStore).store "X").map
        JobRecord.status = some "ready" ∧
    ((startIndex "F" "X" "" (.error "boom") 2
        (runpodCallback "" "" ⟨"X", "m"⟩ 1 emptyStore).store).store "X").map
        JobRecord.status = some "queued" ∧
    stateRank "queued" < stateRank "ready" := by
  decide

/-- C4 amended: monotonicity holds for the callback operation alone — it
only ever writes "ready", the maximal rank, so it never lowers the rank of
any record — while the submit operation can move a job backward by resetting
an existing record to "queued" (see the counterexample). -/
theorem callback_monotone (cfgSecret hdr : String) (m : Manifest) (now : Nat)
    (s : Store) (k : String) :
    rankOpt (s k) ≤ rankOpt ((runpodCallback cfgSecret hdr m now s).store k) := by
  by_cases hA : cfgSecret ≠ "" ∧ hdr ≠ cfgSecret
  · simp [runpodCallback, hA]
  · by_cases hev : m.event_id = ""
    · simp [runpodCallback, hA, hev]
    · by_cases hk : k = m.event_id
      · subst hk
        cases hrec : s m.event_id with
        | none =>
            simp [runpodCallback, hA, hev, hrec, Store.set_same, rankOpt]
        | some r =>
            have h := stateRank_le_three r.status
            have hready : stateRank "ready" = 3 := by simp [stateRank]
            simp [runpodCallback, hA, hev, hrec, Store.set_same, rankOpt, hready]
            omega
      · cases hrec : s m.event_id <;>
          simp [runpodCallback, hA, hev, hrec, Store.set_ne _ _ _ _ hk]
